import Mathlib

/-!
Shallow embedding of the moltbook-cli HTTP client core
(src/moltbook-cli.py): key sanitizing and masking, credential
save/load, host allow-listing, and the request retry loop, together
with theorems settling the frozen claims about them.

Python strings are modelled as lists of Unicode code points
(Lean Char), matching Python 3 str semantics for the operations used
by the source (indexing, slicing, strip, isspace).
-/

namespace Moltbook

/-- A Python 3 string: the list of its code points. -/
abbrev Str := List Char

/-- The whitespace set recognised by Python str.strip() / str.isspace():
ASCII whitespace, the C0 separators 0x1c-0x1f, NEL, NBSP, and the Unicode
space/line/paragraph separators. -/
def isPySpace (c : Char) : Bool :=
  c = ' ' || c = '\t' || c = '\n' || c = '\r' ||
  c = Char.ofNat 0x0b || c = Char.ofNat 0x0c ||
  (0x1c ≤ c.toNat && c.toNat ≤ 0x1f) || c.toNat = 0x85 || c.toNat = 0xa0 ||
  c.toNat = 0x1680 || (0x2000 ≤ c.toNat && c.toNat ≤ 0x200a) ||
  c.toNat = 0x2028 || c.toNat = 0x2029 || c.toNat = 0x202f ||
  c.toNat = 0x205f || c.toNat = 0x3000

/-- Leading-whitespace removal, the left half of Python str.strip(). -/
def lstripWs (s : Str) : Str := s.dropWhile isPySpace

/-- Trailing-whitespace removal, the right half of Python str.strip(). -/
def rstripWs (s : Str) : Str := (s.reverse.dropWhile isPySpace).reverse

/-- Python str.strip() with no arguments. -/
def pyStrip (s : Str) : Str := rstripWs (lstripWs s)

/-- The straight single quote character. -/
def squote : Char := Char.ofNat 39

/-- The test on line 112 of the source: the stripped string is at least two
characters long, starts and ends with the same character, and that character
is a straight single or double quote. -/
def isQuotePair (s : Str) : Bool :=
  decide (2 ≤ s.length) && (s.head? == s.getLast?) &&
  (s.head? == some squote || s.head? == some '"')

/-- The characters removed by the replace chain on line 114: zero-width
space, zero-width non-joiner, zero-width joiner, and the byte-order mark. -/
def isInvisible (c : Char) : Bool :=
  c = Char.ofNat 0x200b || c = Char.ofNat 0x200c ||
  c = Char.ofNat 0x200d || c = Char.ofNat 0xfeff

/-- Lines 112-113 of _sanitize_key: when the string is wrapped in a
matching straight-quote pair, remove the pair (Python s[1:-1]) and strip
the inside again. -/
def stripQuotePair (s : Str) : Str :=
  if isQuotePair s then pyStrip (s.drop 1).dropLast else s

/-- _sanitize_key (lines 108-116): strip, remove one wrapping straight-quote
pair (stripping the inside again), drop the invisible characters, then drop
every remaining whitespace character. The raw is None guard of line 109 is
outside the model: the argument here is always a string. -/
def _sanitize_key (raw : Str) : Str :=
  ((stripQuotePair (pyStrip raw)).filter (fun c => !(isInvisible c))).filter
    (fun c => !(isPySpace c))

/-- The ellipsis character used by _mask_key. -/
def ellipsisChar : Char := Char.ofNat 0x2026

/-- _mask_key (lines 119-124). Python slices key[:2], key[-2:], key[:8],
key[-4:] are take and (truncated-subtraction) drop on the code-point list. -/
def _mask_key (key : Str) : Str :=
  if key = [] then "<empty>".toList
  else if key.length ≤ 12 then
    key.take 2 ++ ellipsisChar :: key.drop (key.length - 2)
  else
    key.take 8 ++ ellipsisChar :: key.drop (key.length - 4)

/-- A JSON value as produced by json.loads. Numbers are restricted to
integers: no claim involves a fractional payload. An object is its field
list in insertion order; json.loads keeps the last of duplicate keys, which
jget mirrors. -/
inductive Json where
  | null
  | bool (b : Bool)
  | num (n : Int)
  | str (s : Str)
  | arr (elems : List Json)
  | obj (fields : List (Str × Json))

/-- dict.get on a decoded JSON object: the last binding of the key wins,
as in the dict json.loads builds. -/
def jget (fields : List (Str × Json)) (k : Str) : Option Json :=
  (fields.reverse.find? (fun p => p.1 == k)).map (fun p => p.2)

/-- Decimal representation of an integer, as Python str(int). -/
def intRepr (n : Int) : Str := (toString n).toList

/-- Two-digit lowercase hex escape body for Python repr of a control byte. -/
def hexLower (n : Nat) : Char :=
  if n < 10 then Char.ofNat (48 + n) else Char.ofNat (87 + n)

/-- One character of a Python repr of a string: escape the backslash, the
chosen quote, newline, carriage return and tab, and other C0 controls and
DEL as a hex escape; everything else is kept. -/
def pyReprChar (q : Char) (c : Char) : Str :=
  if c = '\\' then ['\\', '\\']
  else if c = q then ['\\', q]
  else if c = '\n' then ['\\', 'n']
  else if c = '\r' then ['\\', 'r']
  else if c = '\t' then ['\\', 't']
  else if c.toNat < 32 || c.toNat = 127 then
    ['\\', 'x', hexLower (c.toNat / 16), hexLower (c.toNat % 16)]
  else [c]

/-- Python repr of a string: single-quoted, switching to double quotes when
the string holds a single quote but no double quote. -/
def pyReprStr (s : Str) : Str :=
  let q := if s.contains squote && !(s.contains '"') then '"' else squote
  q :: (s.map (pyReprChar q)).flatten ++ [q]

mutual

/-- Python repr of a value decoded from JSON; used by str() on containers. -/
def pyRepr : Json → Str
  | .null => "None".toList
  | .bool true => "True".toList
  | .bool false => "False".toList
  | .num n => intRepr n
  | .str s => pyReprStr s
  | .arr xs => '[' :: pyReprList xs ++ [']']
  | .obj fs => Char.ofNat 123 :: pyReprFields fs ++ [Char.ofNat 125]

/-- Comma-separated reprs of list elements. -/
def pyReprList : List Json → Str
  | [] => []
  | [x] => pyRepr x
  | x :: y :: xs => pyRepr x ++ ", ".toList ++ pyReprList (y :: xs)

/-- Comma-separated key-value reprs of dict entries. -/
def pyReprFields : List (Str × Json) → Str
  | [] => []
  | [(k, v)] => pyReprStr k ++ ": ".toList ++ pyRepr v
  | (k, v) :: f :: fs => pyReprStr k ++ ": ".toList ++ pyRepr v ++ ", ".toList ++ pyReprFields (f :: fs)

end

/-- Python str() applied to a value decoded from JSON: identity on strings,
repr on everything else (None, True, False, numbers, containers). -/
def pyStrOfJson : Json → Str
  | .str s => s
  | j => pyRepr j

/-- _save_credentials (lines 169-190): the JSON record written to the
credentials file. The file-system mechanics (0600 mode, temporary file,
fsync, atomic rename) do not affect the record content and are not
modelled. -/
def _save_credentials (api_key agent_name : Str) : Json :=
  .obj [("api_key".toList, .str api_key), ("agent_name".toList, .str agent_name)]

/-- _load_saved_credentials (lines 152-166), applied to the parsed content
of the credentials file; none stands for a missing, unreadable or
unparseable file (every failure is swallowed into None). -/
def _load_saved_credentials (file : Option Json) : Option (Str × Str) :=
  match file with
  | none => none
  | some (Json.obj fields) =>
    let api_key :=
      _sanitize_key (pyStrip (pyStrOfJson ((jget fields "api_key".toList).getD (.str []))))
    let agent_name := pyStrip (pyStrOfJson ((jget fields "agent_name".toList).getD (.str [])))
    if api_key ≠ [] then some (api_key, agent_name) else none
  | some _ => none

/-- A character allowed after the first one in a URL scheme. -/
def isSchemeChar (c : Char) : Bool := c.isAlphanum || c = '+' || c = '-' || c = '.'

/-- A valid URL scheme: a letter followed by scheme characters. -/
def validScheme : Str → Bool
  | [] => false
  | c :: cs => c.isAlpha && cs.all isSchemeChar

/-- urllib.parse.urlsplit, scheme step: when the text before the first
colon is a nonempty valid scheme, the remainder after the colon; otherwise
the string unchanged. -/
def afterScheme (u : Str) : Str :=
  if (u.takeWhile (fun c => !(c == ':'))).length = u.length then u
  else if validScheme (u.takeWhile (fun c => !(c == ':'))) then
    u.drop ((u.takeWhile (fun c => !(c == ':'))).length + 1)
  else u

/-- urllib.parse.urlsplit, netloc step: present only when the remainder
starts with a double slash; runs to the first slash, question mark or
hash. -/
def netlocOf : Str → Str
  | '/' :: '/' :: rest => rest.takeWhile (fun c => !(c == '/') && !(c == '?') && !(c == '#'))
  | _ => []

/-- Netloc with the userinfo (everything up to the last at-sign)
removed. -/
def hostinfoOf (netloc : Str) : Str :=
  (netloc.reverse.takeWhile (fun c => !(c == '@'))).reverse

/-- The host part of a hostinfo: bracket contents for an IPv6 literal,
otherwise everything before the port colon. -/
def rawHostOf (hostinfo : Str) : Str :=
  if hostinfo.contains '[' then
    ((hostinfo.dropWhile (fun c => !(c == '['))).drop 1).takeWhile (fun c => !(c == ']'))
  else hostinfo.takeWhile (fun c => !(c == ':'))

/-- urllib.parse hostname of a URL, lowercased (ASCII case mapping, which
covers every host the source compares). An absent hostname is the empty
string, as in the (parsed.hostname or "") of the source. -/
def urlHostname (u : Str) : Str :=
  (rawHostOf (hostinfoOf (netlocOf (afterScheme u)))).map Char.toLower

/-- _ensure_www (lines 34-41): reject the bare apex domain and any other
non-canonical host before a request can be built; an error is the
ValueError message raised. -/
def _ensure_www (url : Str) : Except Str Str :=
  let host := urlHostname url
  if host = "moltbook.com".toList then
    .error "Refusing moltbook.com without www (redirect can strip Authorization). Use https://www.moltbook.com".toList
  else if host ≠ [] ∧ host ≠ "www.moltbook.com".toList then
    .error "Refusing to send credentials to a non-moltbook domain.".toList
  else .ok url

/-- Module constant BASE_URL (line 17). -/
def BASE_URL : Str := "https://www.moltbook.com".toList

/-- Module constant API_BASE (line 18). -/
def API_BASE : Str := BASE_URL ++ "/api/v1".toList

/-- Module constant USER_AGENT (line 19). -/
def USER_AGENT : Str := "moltbook-cli/2.1".toList

/-- Module constant DEFAULT_TIMEOUT_SECONDS (line 20). -/
def DEFAULT_TIMEOUT_SECONDS : Nat := 30

/-- Module constant MAX_RETRIES_IDEMPOTENT (line 21). -/
def MAX_RETRIES_IDEMPOTENT : Nat := 2

/-- Module constant RETRY_BACKOFF_SECONDS (line 22); 1.5 is exact in
binary floating point, so a rational models the sleep arithmetic
exactly. -/
def RETRY_BACKOFF_SECONDS : ℚ := 3 / 2

/-- A query-parameter value as typed in the source: str, int or bool
(a float parameter is never passed by the program). -/
inductive ParamVal where
  | s (v : Str)
  | i (v : Int)
  | b (v : Bool)

/-- Python str() on a parameter value. -/
def pyStrParam : ParamVal → Str
  | .s v => v
  | .i v => intRepr v
  | .b true => "True".toList
  | .b false => "False".toList

/-- Uppercase hex digit, as used by urllib percent escapes. -/
def hexUpper (n : Nat) : Char :=
  if n < 10 then Char.ofNat (48 + n) else Char.ofNat (55 + n)

/-- The UTF-8 bytes of one code point. -/
def utf8Bytes (c : Char) : List Nat :=
  let n := c.toNat
  if n < 0x80 then [n]
  else if n < 0x800 then [0xc0 + n / 0x40, 0x80 + n % 0x40]
  else if n < 0x10000 then
    [0xe0 + n / 0x1000, 0x80 + (n / 0x40) % 0x40, 0x80 + n % 0x40]
  else
    [0xf0 + n / 0x40000, 0x80 + (n / 0x1000) % 0x40, 0x80 + (n / 0x40) % 0x40, 0x80 + n % 0x40]

/-- urllib.parse.quote_plus on one character: space becomes a plus, the
always-safe characters stay, everything else is percent-encoded bytewise. -/
def quotePlusChar (c : Char) : Str :=
  if c = ' ' then ['+']
  else if c.isAlphanum || c = '_' || c = '.' || c = '-' || c = '~' then [c]
  else (utf8Bytes c).map (fun b => ['%', hexUpper (b / 16), hexUpper (b % 16)]) |>.flatten

/-- urllib.parse.quote_plus on a string. -/
def quotePlus (s : Str) : Str := (s.map quotePlusChar).flatten

/-- urllib.parse.urlencode over string-valued pairs (doseq with string
values degenerates to this). -/
def urlencode (qp : List (Str × Str)) : Str :=
  List.intercalate ['&'] (qp.map (fun p => quotePlus p.1 ++ '=' :: quotePlus p.2))

/-- The MoltbookClient dataclass fields (lines 253-257). -/
structure MoltbookClient where
  api_key : Option Str
  timeout_seconds : Nat
  auth_debug : Bool

/-- ApiError (lines 27-31): message, optional HTTP status, details dict
(empty when the error body was not a JSON object). -/
structure ApiError where
  msg : Str
  status : Option Nat
  details : List (Str × Json)

/-- An exception escaping request: a ValueError from validation, or an
ApiError from the response/transport handling. -/
inductive PyErr where
  | valueError (msg : Str)
  | apiError (e : ApiError)

/-- Abstraction of HTTP body bytes as the code observes them: empty, bytes
that decode to txt and parse as the JSON value j, or bytes that decode to
txt but fail JSON parsing. -/
inductive Body where
  | empty
  | jsonVal (j : Json) (txt : Str)
  | notJson (txt : Str)

/-- Outcome of one urllib.request.urlopen call, one constructor per except
clause of request plus the returned-response case. httpError carries the
Location header of the error response so that theorems can state that the
code never reads it. -/
inductive NetOutcome where
  | success (status : Nat) (body : Body)
  | httpError (status : Nat) (body : Body) (location : Option Str)
  | timeout
  | sslError (msg : Str)
  | urlTimeout
  | urlError (reason : Str)
  | otherError (msg : Str)

/-- What a request call returns on success: raw bytes when expected_json is
false, a decoded JSON value otherwise. -/
inductive ReqResult where
  | raw (b : Body)
  | json (j : Json)

/-- _truncate (lines 44-48). -/
def _truncate (s : Str) (max_len : Nat) : Str :=
  let t := pyStrip s
  if t.length ≤ max_len then t else t.take (max_len - 3) ++ "...".toList

/-- Lines 315-324 of request: a response was returned. Raw bytes are handed
back unparsed when expected_json is false; an empty body yields the empty
dict; a non-JSON body raises ApiError, which the final except-Exception
clause (lines 369-371) catches and rewraps, losing the status. -/
def handleSuccess (expected_json : Bool) (b : Body) : Except ApiError ReqResult :=
  if !expected_json then .ok (.raw b)
  else match b with
    | .empty => .ok (.json (.obj []))
    | .jsonVal j _ => .ok (.json j)
    | .notJson _ =>
        .error ⟨"Unexpected error: ".toList ++ _truncate "Server returned non-JSON response.".toList 200,
                none, []⟩

/-- Lines 325-351 of request: convert an HTTPError into the raised
ApiError. The message starts with the status, then the error or message
field of a JSON-object body, else a truncated snippet of the stripped body
text; an object body is kept as details. -/
def httpErrorToApiError (status : Nat) (b : Body) : ApiError :=
  let base := "HTTP ".toList ++ (toString status).toList
  match b with
  | .empty => ⟨base, some status, []⟩
  | .jsonVal (.obj fields) _ =>
      let msg :=
        match jget fields "error".toList with
        | some (.str s) => base ++ ": ".toList ++ s
        | _ =>
          match jget fields "message".toList with
          | some (.str s) => base ++ ": ".toList ++ s
          | _ => base
      ⟨msg, some status, fields⟩
  | .jsonVal _ txt =>
      let t := pyStrip txt
      ⟨if t = [] then base else base ++ ": ".toList ++ _truncate t 200, some status, []⟩
  | .notJson txt =>
      let t := pyStrip txt
      ⟨if t = [] then base else base ++ ": ".toList ++ _truncate t 200, some status, []⟩

/-- The retry loop of request (lines 313-373). env gives the outcome of
each urlopen call by attempt index; retriesLeft is retries minus attempt,
so the source condition attempt < retries is retriesLeft > 0. Returns the
outcome, the backoff sleeps performed in order (seconds), and how many
urlopen calls were made. -/
def runAttempts (env : Nat → NetOutcome) (expected_json : Bool) :
    Nat → Nat → Except ApiError ReqResult × List ℚ × Nat
  | attempt, retriesLeft =>
    match env attempt with
    | .success _ b => (handleSuccess expected_json b, [], 1)
    | .httpError st b _ => (.error (httpErrorToApiError st b), [], 1)
    | .timeout =>
        match retriesLeft with
        | 0 => (.error ⟨"Request timed out. Increase timeout or retry later.".toList, none, []⟩, [], 1)
        | r + 1 =>
            let rest := runAttempts env expected_json (attempt + 1) r
            (rest.1, RETRY_BACKOFF_SECONDS * ((attempt : ℚ) + 1) :: rest.2.1, rest.2.2 + 1)
    | .urlTimeout =>
        match retriesLeft with
        | 0 => (.error ⟨"Request timed out. Increase timeout or retry later.".toList, none, []⟩, [], 1)
        | r + 1 =>
            let rest := runAttempts env expected_json (attempt + 1) r
            (rest.1, RETRY_BACKOFF_SECONDS * ((attempt : ℚ) + 1) :: rest.2.1, rest.2.2 + 1)
    | .sslError m => (.error ⟨"TLS/SSL error: ".toList ++ _truncate m 200, none, []⟩, [], 1)
    | .urlError reason => (.error ⟨"Network error: ".toList ++ _truncate reason 200, none, []⟩, [], 1)
    | .otherError m => (.error ⟨"Unexpected error: ".toList ++ _truncate m 200, none, []⟩, [], 1)

/-- dict assignment d[k] = v on a header dict. -/
def dictSet (d : List (Str × Str)) (k v : Str) : List (Str × Str) :=
  if d.any (fun p => p.1 == k) then d.map (fun p => if p.1 == k then (k, v) else p)
  else d ++ [(k, v)]

/-- dict.update. -/
def dictUpdate (d e : List (Str × Str)) : List (Str × Str) :=
  e.foldl (fun acc p => dictSet acc p.1 p.2) d

/-- _headers (lines 259-273); the auth-debug print is output only. An empty
or unset api_key with include_auth raises ValueError. -/
def MoltbookClient.headersOf (c : MoltbookClient) (extra : List (Str × Str))
    (include_auth : Bool) : Except Str (List (Str × Str)) :=
  let h := [("User-Agent".toList, USER_AGENT),
            ("Accept".toList, "application/json".toList),
            ("Connection".toList, "close".toList)]
  if include_auth then
    match c.api_key with
    | some k =>
        if k = [] then .error "API key is not set for this operation.".toList
        else .ok (dictUpdate (h ++ [("Authorization".toList, "Bearer ".toList ++ k)]) extra)
    | none => .error "API key is not set for this operation.".toList
  else .ok (dictUpdate h extra)

/-- Line 286-287: make the path absolute. -/
def normPath (path : Str) : Str :=
  if path.head? = some '/' then path else '/' :: path

/-- Lines 309-310: retry budget by idempotency of the (uppercased)
method. -/
def retriesFor (method : Str) : Nat :=
  let m := method.map Char.toUpper
  if m = "GET".toList ∨ m = "HEAD".toList ∨ m = "OPTIONS".toList then
    MAX_RETRIES_IDEMPOTENT
  else 0

/-- Observable trace of one request call: the returned value or escaped
exception, the backoff sleeps performed, and the number of urlopen calls
issued. -/
structure ReqTrace where
  result : Except PyErr ReqResult
  sleeps : List ℚ
  calls : Nat

/-- Package the retry loop outcome as a trace. -/
def loopTrace (env : Nat → NetOutcome) (expected_json : Bool) (retries : Nat) : ReqTrace :=
  let r := runAttempts env expected_json 0 retries
  ⟨r.1.mapError PyErr.apiError, r.2.1, r.2.2⟩

/-- MoltbookClient.request (lines 275-373), with the API base exposed as a
parameter (the source fixes it to the module constant; see
MoltbookClient.request below). env abstracts the network. The request body
bytes and the header dict influence no modelled observable beyond the
validation errors, so they are computed only as far as those errors. -/
def MoltbookClient.requestWithBase (c : MoltbookClient) (apiBase : Str)
    (env : Nat → NetOutcome) (method path : Str)
    (params : List (Str × Option ParamVal)) (json_body : Option Json)
    (raw_body : Option (List Nat)) (extra_headers : List (Str × Str))
    (expected_json include_auth : Bool) : ReqTrace :=
  match _ensure_www (apiBase ++ normPath path) with
  | .error m => ⟨.error (.valueError m), [], 0⟩
  | .ok url0 =>
    let qp := params.filterMap (fun p => p.2.map (fun v => (p.1, pyStrParam v)))
    let _url := if params.isEmpty then url0
      else if qp.isEmpty then url0 else url0 ++ '?' :: urlencode qp
    if json_body.isSome && raw_body.isSome then
      ⟨.error (.valueError "Provide either json_body or raw_body, not both.".toList), [], 0⟩
    else
      match c.headersOf extra_headers include_auth with
      | .error m => ⟨.error (.valueError m), [], 0⟩
      | .ok _headers => loopTrace env expected_json (retriesFor method)

/-- MoltbookClient.request as the source runs it: the base URL is the
module constant API_BASE. -/
def MoltbookClient.request (c : MoltbookClient) (env : Nat → NetOutcome)
    (method path : Str) (params : List (Str × Option ParamVal))
    (json_body : Option Json) (raw_body : Option (List Nat))
    (extra_headers : List (Str × Str)) (expected_json include_auth : Bool) : ReqTrace :=
  c.requestWithBase API_BASE env method path params json_body raw_body
    extra_headers expected_json include_auth

/-- A fixed client used to instantiate witnesses and counterexamples. -/
def sampleClient : MoltbookClient := ⟨some "sk-live-1234".toList, 30, false⟩

/-- The success body of the spec's 201 example: the decoded JSON object
fields of the payload with id p1 and title hi. -/
def postFields : List (Str × Json) :=
  [("id".toList, Json.str "p1".toList), ("title".toList, Json.str "hi".toList)]

/-! ### List helper lemmas -/

theorem dropWhile_eq_self_of_all {α : Type} {f : α → Bool} {l : List α}
    (h : ∀ c ∈ l, f c = false) : l.dropWhile f = l := by
  cases l with
  | nil => rfl
  | cons a t =>
    exact List.dropWhile_cons_of_neg (by simp [h a (List.mem_cons_self a t)])

theorem dropWhile_idem {α : Type} {f : α → Bool} {l : List α} :
    (l.dropWhile f).dropWhile f = l.dropWhile f := by
  have h := List.head?_dropWhile_not f l
  cases hd : l.dropWhile f with
  | nil => rfl
  | cons a t =>
    rw [hd] at h
    simp only [List.head?_cons] at h
    exact List.dropWhile_cons_of_neg (by simp [h])

theorem takeWhile_append_left {α : Type} {f : α → Bool} {l r : List α}
    (h : l.all f = false) : (l ++ r).takeWhile f = l.takeWhile f := by
  induction l with
  | nil => simp at h
  | cons a t ih =>
    cases hfa : f a with
    | false => simp [List.takeWhile_cons_of_neg, hfa]
    | true =>
      simp only [List.all_cons, hfa, Bool.true_and] at h
      simp [List.takeWhile_cons_of_pos, hfa, ih h]

theorem dropWhile_append_left {α : Type} {f : α → Bool} {l r : List α}
    (h : l.all f = false) : (l ++ r).dropWhile f = l.dropWhile f ++ r := by
  induction l with
  | nil => simp at h
  | cons a t ih =>
    cases hfa : f a with
    | false => simp [List.dropWhile_cons_of_neg, hfa]
    | true =>
      simp only [List.all_cons, hfa, Bool.true_and] at h
      simp [List.dropWhile_cons_of_pos, hfa, ih h]

theorem filter_dropWhile {α : Type} {f q : α → Bool} {l : List α}
    (h : ∀ c, q c = true → f c = false) : (l.dropWhile q).filter f = l.filter f := by
  induction l with
  | nil => rfl
  | cons a t ih =>
    cases hqa : q a with
    | false => rw [List.dropWhile_cons_of_neg (by simp [hqa])]
    | true =>
      rw [List.dropWhile_cons_of_pos hqa, ih,
        List.filter_cons_of_neg (by simp [h a hqa])]

/-! ### pyStrip lemmas -/

theorem filter_rstripWs {f : Char → Bool} {l : Str}
    (h : ∀ c, isPySpace c = true → f c = false) :
    (rstripWs l).filter f = l.filter f := by
  unfold rstripWs
  rw [List.filter_reverse, filter_dropWhile h, List.filter_reverse, List.reverse_reverse]

theorem filter_pyStrip {f : Char → Bool} {l : Str}
    (h : ∀ c, isPySpace c = true → f c = false) :
    (pyStrip l).filter f = l.filter f := by
  unfold pyStrip lstripWs
  rw [filter_rstripWs h, filter_dropWhile h]

theorem pyStrip_eq_self {l : Str} (h : ∀ c ∈ l, isPySpace c = false) :
    pyStrip l = l := by
  unfold pyStrip lstripWs rstripWs
  rw [dropWhile_eq_self_of_all h,
    dropWhile_eq_self_of_all (fun c hc => h c (List.mem_reverse.mp hc)),
    List.reverse_reverse]

theorem rstripWs_idem {l : Str} : rstripWs (rstripWs l) = rstripWs l := by
  unfold rstripWs
  rw [List.reverse_reverse, dropWhile_idem]

theorem lstripWs_rstripWs_lstripWs {l : Str} :
    lstripWs (rstripWs (lstripWs l)) = rstripWs (lstripWs l) := by
  cases hM : lstripWs l with
  | nil => simp [rstripWs, lstripWs, hM]
  | cons a t =>
    have ha : isPySpace a = false := by
      have h := List.head?_dropWhile_not isPySpace l
      unfold lstripWs at hM
      rw [hM] at h
      simpa using h
    show lstripWs (rstripWs (a :: t)) = rstripWs (a :: t)
    unfold rstripWs
    rw [List.reverse_cons]
    cases hall : t.reverse.all isPySpace with
    | true =>
      rw [List.dropWhile_append_of_pos (by simpa using hall),
        List.dropWhile_cons_of_neg (by simp [ha])]
      simp [lstripWs, ha]
    | false =>
      rw [dropWhile_append_left hall, List.reverse_append]
      simp [lstripWs, ha]

theorem pyStrip_idem {l : Str} : pyStrip (pyStrip l) = pyStrip l := by
  show rstripWs (lstripWs (rstripWs (lstripWs l))) = rstripWs (lstripWs l)
  rw [lstripWs_rstripWs_lstripWs, rstripWs_idem]

/-- _sanitize_key only looks at its argument through pyStrip, so pre-stripping
is absorbed (used by the credential load path, which strips before
sanitizing). -/
theorem sanitize_pyStrip {l : Str} : _sanitize_key (pyStrip l) = _sanitize_key l := by
  unfold _sanitize_key
  rw [pyStrip_idem]

/-! ### Hostname of the API base -/

theorem urlHostname_apiBase (p : Str) :
    urlHostname (API_BASE ++ p) = "www.moltbook.com".toList := by
  have hsplit : API_BASE ++ p =
      "https".toList ++ ':' :: ("//www.moltbook.com/api/v1".toList ++ p) := by
    have h0 : API_BASE = "https".toList ++ ':' :: "//www.moltbook.com/api/v1".toList := by decide
    rw [h0, List.append_assoc, List.cons_append]
  have hpre : (API_BASE ++ p).takeWhile (fun c => !(c == ':')) = "https".toList := by
    have hall : ∀ a ∈ "https".toList, (fun c => !(c == ':')) a = true := by decide
    rw [hsplit, List.takeWhile_append_of_pos hall]
    simp [List.takeWhile_cons]
  have hafter : afterScheme (API_BASE ++ p) = "//www.moltbook.com/api/v1".toList ++ p := by
    unfold afterScheme
    rw [hpre]
    rw [if_neg, if_pos (by decide)]
    · have hsplit2 : API_BASE ++ p =
          "https:".toList ++ ("//www.moltbook.com/api/v1".toList ++ p) := by
        have h0 : API_BASE = "https:".toList ++ "//www.moltbook.com/api/v1".toList := by decide
        rw [h0, List.append_assoc]
      have h6 : ("https:".toList).length = ("https".toList).length + 1 := by decide
      rw [hsplit2, List.drop_left' h6]
    · rw [hsplit]
      simp only [List.length_append, List.length_cons]
      intro hlen
      omega
  have hnet : netlocOf (afterScheme (API_BASE ++ p)) = "www.moltbook.com".toList := by
    rw [hafter]
    have h0 : "//www.moltbook.com/api/v1".toList ++ p =
        '/' :: '/' :: ("www.moltbook.com".toList ++ '/' :: "api/v1".toList ++ p) := by
      have h1 : "//www.moltbook.com/api/v1".toList =
          '/' :: '/' :: ("www.moltbook.com".toList ++ '/' :: "api/v1".toList) := by decide
      rw [h1, List.cons_append, List.cons_append, List.append_assoc]
    rw [h0]
    show (("www.moltbook.com".toList ++ '/' :: "api/v1".toList) ++ p).takeWhile
        (fun c => !(c == '/') && !(c == '?') && !(c == '#')) = "www.moltbook.com".toList
    rw [List.append_assoc, List.cons_append]
    have hall : ∀ a ∈ "www.moltbook.com".toList,
        (fun c => !(c == '/') && !(c == '?') && !(c == '#')) a = true := by decide
    rw [List.takeWhile_append_of_pos hall]
    simp [List.takeWhile_cons]
  unfold urlHostname
  rw [hnet]
  decide

/-- The host check of _ensure_www always passes on URLs built from the
module constant API_BASE, whatever the path. -/
theorem ensure_www_apiBase (p : Str) : _ensure_www (API_BASE ++ p) = .ok (API_BASE ++ p) := by
  unfold _ensure_www
  rw [urlHostname_apiBase]
  rw [if_neg (by decide), if_neg (by decide)]

/-- A request with no parameters, no body and no extra headers, on a client
whose api_key is set and nonempty, passes every validation step and is
decided entirely by the retry loop. -/
theorem request_reduces (c : MoltbookClient) (k : Str) (env : Nat → NetOutcome)
    (method path : Str) (ej : Bool) (hk : c.api_key = some k) (hne : k ≠ []) :
    c.request env method path [] none none [] ej true = loopTrace env ej (retriesFor method) := by
  unfold MoltbookClient.request MoltbookClient.requestWithBase MoltbookClient.headersOf
  rw [ensure_www_apiBase, hk]
  simp [hne]

/-- A returned response ends the loop at once, whatever the retry budget. -/
theorem runAttempts_success {env : Nat → NetOutcome} {ej : Bool} {attempt r st : Nat}
    {b : Body} (h : env attempt = .success st b) :
    runAttempts env ej attempt r = (handleSuccess ej b, [], 1) := by
  cases r <;> simp [runAttempts, h]

/-- An HTTPError ends the loop at once, whatever the retry budget. -/
theorem runAttempts_httpError {env : Nat → NetOutcome} {ej : Bool} {attempt r st : Nat}
    {b : Body} {loc : Option Str} (h : env attempt = .httpError st b loc) :
    runAttempts env ej attempt r = (.error (httpErrorToApiError st b), [], 1) := by
  cases r <;> simp [runAttempts, h]

/-! ### Claims about the request pipeline -/

/-- C1, counterexample. A 3xx reaching request is an HTTPError raised by
urlopen; the call then raises ApiError with message HTTP 301, empty
details and no warning or Location field, although the error response
carried a Location header: the claimed result that exposes the Location
value and a warning is never produced. -/
theorem c1_counterexample :
    (sampleClient.request
        (fun _ => .httpError 301 .empty (some "https://attacker.example/capture".toList))
        "GET".toList "/agents/me".toList [] none none [] true true).result
      = .error (.apiError ⟨"HTTP 301".toList, some 301, []⟩) := rfl

/-- C1, amended. A 3xx response surfaced to request comes back from urlopen
as an HTTPError and is converted to the ApiError built from its status and
body alone: the outcome is an exception, not a result, and is independent
of the Location header (loc does not occur on the right-hand side), so no
Location value or warning field is ever exposed. -/
theorem c1_redirect_becomes_apierror (c : MoltbookClient) (k : Str)
    (env : Nat → NetOutcome) (method path : Str) (st : Nat) (b : Body)
    (loc : Option Str) (hk : c.api_key = some k) (hne : k ≠ [])
    (_hst : 300 ≤ st ∧ st ≤ 399) (h0 : env 0 = .httpError st b loc) :
    (c.request env method path [] none none [] true true).result
      = .error (.apiError (httpErrorToApiError st b)) := by
  rw [request_reduces c k env method path true hk hne]
  simp [loopTrace, runAttempts_httpError h0, Except.mapError]

/-- C1, witness for the amended theorem. -/
theorem c1_redirect_becomes_apierror_witness :
    sampleClient.api_key = some "sk-live-1234".toList ∧
    (300 ≤ 302 ∧ 302 ≤ 399) ∧
    (sampleClient.request (fun _ => .httpError 302 .empty (some "https://other.example/".toList))
        "GET".toList "/agents/me".toList [] none none [] true true).result
      = .error (.apiError (httpErrorToApiError 302 .empty)) :=
  ⟨rfl, by decide,
    c1_redirect_becomes_apierror sampleClient "sk-live-1234".toList
      (fun _ => .httpError 302 .empty (some "https://other.example/".toList))
      "GET".toList "/agents/me".toList 302 .empty
      (some "https://other.example/".toList) rfl (by decide) (by decide) rfl⟩

/-- C2, counterexample. A 201 response with body id p1, title hi yields
exactly the parsed body: the result has id and title but no status_code
field, so the claimed injection of status_code = 201 does not happen. -/
theorem c2_counterexample :
    (sampleClient.request
        (fun _ => .success 201 (.jsonVal (.obj postFields) "x".toList))
        "POST".toList "/posts".toList [] none none [] true true).result
      = .ok (.json (.obj postFields)) ∧
    jget postFields "status_code".toList = none :=
  ⟨rfl, rfl⟩

/-- C2, amended. A 2xx response whose body parses as JSON is returned as
that parsed value unchanged: no status code is merged into it. -/
theorem c2_success_returns_body (c : MoltbookClient) (k : Str)
    (env : Nat → NetOutcome) (method path : Str) (st : Nat) (j : Json) (txt : Str)
    (hk : c.api_key = some k) (hne : k ≠ [])
    (_hst : 200 ≤ st ∧ st ≤ 299) (h0 : env 0 = .success st (.jsonVal j txt)) :
    (c.request env method path [] none none [] true true).result = .ok (.json j) := by
  rw [request_reduces c k env method path true hk hne]
  simp [loopTrace, runAttempts_success h0, handleSuccess, Except.mapError]

/-- C2, witness for the amended theorem. -/
theorem c2_success_returns_body_witness :
    sampleClient.api_key = some "sk-live-1234".toList ∧
    (200 ≤ 201 ∧ 201 ≤ 299) ∧
    (sampleClient.request (fun _ => .success 201 (.jsonVal (.obj postFields) "x".toList))
        "POST".toList "/posts".toList [] none none [] true true).result
      = .ok (.json (.obj postFields)) :=
  ⟨rfl, by decide,
    c2_success_returns_body sampleClient "sk-live-1234".toList
      (fun _ => .success 201 (.jsonVal (.obj postFields) "x".toList))
      "POST".toList "/posts".toList 201 (.obj postFields) "x".toList
      rfl (by decide) (by decide) rfl⟩

/-- C3: when the configured base joined with the normalised path parses to
a nonempty host different from www.moltbook.com, the call fails with a
ValueError (configuration error) and the trace shows zero urlopen calls and
zero sleeps. -/
theorem c3_nonwww_rejected_before_network (c : MoltbookClient) (base : Str)
    (env : Nat → NetOutcome) (method path : Str)
    (params : List (Str × Option ParamVal)) (jb : Option Json)
    (rb : Option (List Nat)) (eh : List (Str × Str)) (ej ia : Bool)
    (hne : urlHostname (base ++ normPath path) ≠ [])
    (hwww : urlHostname (base ++ normPath path) ≠ "www.moltbook.com".toList) :
    ∃ m, c.requestWithBase base env method path params jb rb eh ej ia
        = ⟨.error (.valueError m), [], 0⟩ := by
  have hens : ∃ m, _ensure_www (base ++ normPath path) = .error m := by
    unfold _ensure_www
    by_cases h : urlHostname (base ++ normPath path) = "moltbook.com".toList
    · exact ⟨_, if_pos h⟩
    · rw [if_neg h, if_pos ⟨hne, hwww⟩]
      exact ⟨_, rfl⟩
  obtain ⟨m, hm⟩ := hens
  refine ⟨m, ?_⟩
  unfold MoltbookClient.requestWithBase
  rw [hm]

/-- C3, witness: the bare apex base is rejected with no network call. -/
theorem c3_nonwww_rejected_before_network_witness :
    urlHostname ("https://moltbook.com".toList ++ normPath "/agents/me".toList) ≠ [] ∧
    urlHostname ("https://moltbook.com".toList ++ normPath "/agents/me".toList)
      ≠ "www.moltbook.com".toList ∧
    ∃ m, sampleClient.requestWithBase "https://moltbook.com".toList (fun _ => .timeout)
        "GET".toList "/agents/me".toList [] none none [] true true
        = ⟨.error (.valueError m), [], 0⟩ :=
  ⟨by decide, by decide,
    c3_nonwww_rejected_before_network sampleClient "https://moltbook.com".toList
      (fun _ => .timeout) "GET".toList "/agents/me".toList [] none none [] true true
      (by decide) (by decide)⟩

/-- C4: a GET whose every attempt times out is retried exactly
MAX_RETRIES_IDEMPOTENT additional times (MAX_RETRIES_IDEMPOTENT + 1 urlopen
calls), sleeping RETRY_BACKOFF_SECONDS times the 1-based retry number
before each retry - a strictly increasing schedule - and then raises
ApiError with the request-timed-out message. -/
theorem c4_get_timeout_retries (c : MoltbookClient) (k : Str)
    (env : Nat → NetOutcome) (path : Str) (hk : c.api_key = some k) (hne : k ≠ [])
    (henv : ∀ i, env i = NetOutcome.timeout ∨ env i = NetOutcome.urlTimeout) :
    c.request env "GET".toList path [] none none [] true true
      = ⟨.error (.apiError ⟨"Request timed out. Increase timeout or retry later.".toList, none, []⟩),
         [RETRY_BACKOFF_SECONDS * 1, RETRY_BACKOFF_SECONDS * 2],
         MAX_RETRIES_IDEMPOTENT + 1⟩ ∧
    List.Chain' (fun a b => a < b)
      [RETRY_BACKOFF_SECONDS * 1, RETRY_BACKOFF_SECONDS * 2] := by
  constructor
  · rw [request_reduces c k env "GET".toList path true hk hne]
    have hr : retriesFor "GET".toList = 2 := by decide
    rw [hr]
    rcases henv 0 with h0 | h0 <;> rcases henv 1 with h1 | h1 <;> rcases henv 2 with h2 | h2 <;>
      simp [loopTrace, runAttempts, h0, h1, h2, MAX_RETRIES_IDEMPOTENT, Except.mapError] <;>
      norm_num
  · simp only [List.chain'_cons, List.chain'_singleton, and_true, RETRY_BACKOFF_SECONDS]
    norm_num

/-- C4, witness. -/
theorem c4_get_timeout_retries_witness :
    sampleClient.api_key = some "sk-live-1234".toList ∧
    (∀ i : Nat, (fun _ => NetOutcome.timeout) i = NetOutcome.timeout ∨
        (fun _ => NetOutcome.timeout) i = NetOutcome.urlTimeout) ∧
    (sampleClient.request (fun _ => NetOutcome.timeout) "GET".toList "/agents/status".toList
        [] none none [] true true
      = ⟨.error (.apiError ⟨"Request timed out. Increase timeout or retry later.".toList, none, []⟩),
         [RETRY_BACKOFF_SECONDS * 1, RETRY_BACKOFF_SECONDS * 2],
         MAX_RETRIES_IDEMPOTENT + 1⟩ ∧
      List.Chain' (fun a b => a < b)
        [RETRY_BACKOFF_SECONDS * 1, RETRY_BACKOFF_SECONDS * 2]) :=
  ⟨rfl, fun _ => Or.inl rfl,
    c4_get_timeout_retries sampleClient "sk-live-1234".toList (fun _ => NetOutcome.timeout)
      "/agents/status".toList rfl (by decide) (fun _ => Or.inl rfl)⟩

/-- C5: a POST, PATCH or DELETE whose first attempt times out raises the
timeout ApiError after exactly one urlopen call and no sleeps: non-idempotent
methods are never retried. -/
theorem c5_nonidempotent_no_retry (c : MoltbookClient) (k : Str)
    (env : Nat → NetOutcome) (method path : Str) (hk : c.api_key = some k) (hne : k ≠ [])
    (hm : method.map Char.toUpper = "POST".toList ∨ method.map Char.toUpper = "PATCH".toList ∨
      method.map Char.toUpper = "DELETE".toList)
    (henv : env 0 = NetOutcome.timeout ∨ env 0 = NetOutcome.urlTimeout) :
    c.request env method path [] none none [] true true
      = ⟨.error (.apiError ⟨"Request timed out. Increase timeout or retry later.".toList, none, []⟩),
         [], 1⟩ := by
  rw [request_reduces c k env method path true hk hne]
  have hr : retriesFor method = 0 := by
    unfold retriesFor
    rcases hm with h | h | h <;> rw [h] <;> decide
  rw [hr]
  rcases henv with h0 | h0 <;> simp [loopTrace, runAttempts, h0, Except.mapError]

/-- C5, witness. -/
theorem c5_nonidempotent_no_retry_witness :
    sampleClient.api_key = some "sk-live-1234".toList ∧
    "POST".toList.map Char.toUpper = "POST".toList ∧
    sampleClient.request (fun _ => NetOutcome.timeout) "POST".toList "/posts".toList
        [] none none [] true true
      = ⟨.error (.apiError ⟨"Request timed out. Increase timeout or retry later.".toList, none, []⟩),
         [], 1⟩ :=
  ⟨rfl, by decide,
    c5_nonidempotent_no_retry sampleClient "sk-live-1234".toList (fun _ => NetOutcome.timeout)
      "POST".toList "/posts".toList rfl (by decide) (Or.inl (by decide)) (Or.inl rfl)⟩

/-- C10: a 2xx response with an empty body yields the empty dict, even with
expected_json = true. -/
theorem c10_empty_body_empty_dict (c : MoltbookClient) (k : Str)
    (env : Nat → NetOutcome) (method path : Str) (st : Nat)
    (hk : c.api_key = some k) (hne : k ≠ [])
    (_hst : 200 ≤ st ∧ st ≤ 299) (h0 : env 0 = .success st .empty) :
    (c.request env method path [] none none [] true true).result
      = .ok (.json (.obj [])) := by
  rw [request_reduces c k env method path true hk hne]
  simp [loopTrace, runAttempts_success h0, handleSuccess, Except.mapError]

/-- C10, witness. -/
theorem c10_empty_body_empty_dict_witness :
    sampleClient.api_key = some "sk-live-1234".toList ∧
    (200 ≤ 204 ∧ 204 ≤ 299) ∧
    (sampleClient.request (fun _ => .success 204 .empty) "DELETE".toList
        "/agents/me/avatar".toList [] none none [] true true).result
      = .ok (.json (.obj [])) :=
  ⟨rfl, by decide,
    c10_empty_body_empty_dict sampleClient "sk-live-1234".toList
      (fun _ => .success 204 .empty) "DELETE".toList "/agents/me/avatar".toList 204
      rfl (by decide) (by decide) rfl⟩

/-! ### Claims about the key sanitizer, the mask and the credential store -/

/-- C6, counterexample: the sanitizer is not idempotent. Four double quotes
sanitize to two double quotes, which a second pass strips to the empty
string. -/
theorem c6_counterexample :
    _sanitize_key (_sanitize_key ['"', '"', '"', '"']) ≠ _sanitize_key ['"', '"', '"', '"'] := by
  decide

/-- C6, amended: the sanitizer is idempotent on exactly the inputs whose
sanitized value is not itself wrapped in a matching straight-quote pair
(the counterexample shows the wrapped case loses a second pair). -/
theorem c6_sanitize_idempotent (x : Str) (h : isQuotePair (_sanitize_key x) = false) :
    _sanitize_key (_sanitize_key x) = _sanitize_key x := by
  have hspace : ∀ c ∈ _sanitize_key x, isPySpace c = false := by
    intro c hc
    unfold _sanitize_key at hc
    simp only [List.mem_filter] at hc
    simpa using hc.2
  have hinvis : ∀ c ∈ _sanitize_key x, isInvisible c = false := by
    intro c hc
    unfold _sanitize_key at hc
    simp only [List.mem_filter] at hc
    simpa using hc.1.2
  set y := _sanitize_key x with hy
  have hf1 : List.filter (fun c => !(isInvisible c)) y = y :=
    List.filter_eq_self.mpr (fun a ha => by simp [hinvis a ha])
  have hf2 : List.filter (fun c => !(isPySpace c)) y = y :=
    List.filter_eq_self.mpr (fun a ha => by simp [hspace a ha])
  unfold _sanitize_key stripQuotePair
  rw [pyStrip_eq_self hspace]
  rw [if_neg (by simp [h])]
  rw [hf1, hf2]

/-- C6, witness. -/
theorem c6_sanitize_idempotent_witness :
    isQuotePair (_sanitize_key " 'abc' ".toList) = false ∧
    _sanitize_key (_sanitize_key " 'abc' ".toList) = _sanitize_key " 'abc' ".toList :=
  ⟨by decide, c6_sanitize_idempotent " 'abc' ".toList (by decide)⟩

/-- A string wrapped in typographic (curly) quotes. -/
def curlyQuoted : Str := [Char.ofNat 0x2018, 'a', 'b', Char.ofNat 0x2019]

/-- C7, counterexample: a string wrapped in a matching pair of curly quote
characters is returned unchanged; the pair is not stripped, contrary to the
claim that curly quote pairs are removed. -/
theorem c7_counterexample :
    _sanitize_key curlyQuoted = curlyQuoted ∧ _sanitize_key curlyQuoted ≠ ['a', 'b'] := by
  constructor <;> decide

/-- C7, amended: for a string whose trimmed form is wrapped in a matching
pair of straight quote characters (only straight quotes, not curly), the
sanitizer strips exactly that one pair and removes the invisible characters
(zero-width space/joiners and the byte-order mark, anywhere) and every
whitespace character from what remains. -/
theorem c7_straight_quote_strip (w1 w2 inner : Str) (q : Char)
    (h1 : ∀ c ∈ w1, isPySpace c = true) (h2 : ∀ c ∈ w2, isPySpace c = true)
    (hq : q = squote ∨ q = '"') :
    _sanitize_key (w1 ++ [q] ++ inner ++ [q] ++ w2)
      = (inner.filter (fun c => !(isInvisible c))).filter (fun c => !(isPySpace c)) := by
  have hqs : isPySpace q = false := by rcases hq with rfl | rfl <;> decide
  have hqneg : ¬ isPySpace q = true := by simp [hqs]
  have hs : pyStrip (w1 ++ [q] ++ inner ++ [q] ++ w2) = q :: (inner ++ [q]) := by
    have h2r : ∀ c ∈ w2.reverse, isPySpace c := fun c hc => h2 c (List.mem_reverse.mp hc)
    unfold pyStrip lstripWs rstripWs
    rw [show w1 ++ [q] ++ inner ++ [q] ++ w2 = w1 ++ (q :: (inner ++ ([q] ++ w2))) from by simp]
    rw [List.dropWhile_append_of_pos h1, List.dropWhile_cons_of_neg hqneg]
    rw [show (q :: (inner ++ ([q] ++ w2))).reverse
        = w2.reverse ++ (q :: (inner.reverse ++ [q])) from by simp]
    rw [List.dropWhile_append_of_pos h2r, List.dropWhile_cons_of_neg hqneg]
    simp
  have hlast : (q :: (inner ++ [q])).getLast? = some q := List.getLast?_concat (q :: inner)
  have hqp : isQuotePair (q :: (inner ++ [q])) = true := by
    unfold isQuotePair
    rw [hlast]
    rcases hq with rfl | rfl <;>
      simp [Bool.and_eq_true, decide_eq_true_eq, List.length_append]
  unfold _sanitize_key stripQuotePair
  rw [hs, if_pos hqp]
  rw [show (q :: (inner ++ [q])).drop 1 = inner ++ [q] from rfl, List.dropLast_concat,
    List.filter_filter, List.filter_filter]
  exact filter_pyStrip (fun c hc => by simp [hc])

/-- C7, witness. -/
theorem c7_straight_quote_strip_witness :
    (∀ c ∈ ([' '] : Str), isPySpace c = true) ∧
    (∀ c ∈ ([] : Str), isPySpace c = true) ∧
    (('"' : Char) = squote ∨ ('"' : Char) = '"') ∧
    _sanitize_key ([' '] ++ ['"'] ++ "a b".toList ++ ['"'] ++ [])
      = (("a b".toList).filter (fun c => !(isInvisible c))).filter (fun c => !(isPySpace c)) :=
  ⟨by decide, by decide, Or.inr rfl,
    c7_straight_quote_strip [' '] [] "a b".toList '"' (by decide) (by decide) (Or.inr rfl)⟩

/-- C8: the mask of an empty key is the literal placeholder; a nonempty key
of length at most 12 is masked as first 2, ellipsis, last 2; a longer key as
first 8, ellipsis, last 4; and in the long case the mask depends only on
those first 8 and last 4 characters, never on the middle of the secret. -/
theorem c8_mask_shape (k : Str) :
    (k = [] → _mask_key k = "<empty>".toList) ∧
    (k ≠ [] → k.length ≤ 12 →
      _mask_key k = k.take 2 ++ ellipsisChar :: k.drop (k.length - 2)) ∧
    (12 < k.length → _mask_key k = k.take 8 ++ ellipsisChar :: k.drop (k.length - 4)) ∧
    (∀ k' : Str, 12 < k.length → 12 < k'.length → k.take 8 = k'.take 8 →
      k.drop (k.length - 4) = k'.drop (k'.length - 4) → _mask_key k = _mask_key k') := by
  refine ⟨?_, ?_, ?_, ?_⟩
  · intro h
    simp only [_mask_key, if_pos h]
  · intro h1 h2
    simp only [_mask_key, if_neg h1, if_pos h2]
  · intro h
    have hne : k ≠ [] := by rintro rfl; simp at h
    simp only [_mask_key, if_neg hne, if_neg (by omega : ¬ k.length ≤ 12)]
  · intro k' h1 h2 ht hd
    have hne : k ≠ [] := by rintro rfl; simp at h1
    have hne' : k' ≠ [] := by rintro rfl; simp at h2
    simp only [_mask_key, if_neg hne, if_neg (by omega : ¬ k.length ≤ 12),
      if_neg hne', if_neg (by omega : ¬ k'.length ≤ 12), ht, hd]

/-- C8, witness: a 17-character key is masked to first 8, ellipsis,
last 4. -/
theorem c8_mask_shape_witness :
    12 < ("sk-live-1234-abcd".toList).length ∧
    _mask_key "sk-live-1234-abcd".toList
      = ("sk-live-1234-abcd".toList).take 8 ++ ellipsisChar ::
          ("sk-live-1234-abcd".toList).drop (("sk-live-1234-abcd".toList).length - 4) :=
  ⟨by decide, (c8_mask_shape "sk-live-1234-abcd".toList).2.2.1 (by decide)⟩

/-- C9, counterexample: a secret that sanitizes to something else is not
returned identically by the save/load round trip: saving the three-character
secret quote-x-quote loads back as the single character x. -/
theorem c9_counterexample :
    _load_saved_credentials (some (_save_credentials ['"', 'x', '"'] ['n']))
        = some (['x'], ['n']) ∧
    (['x'] : Str) ≠ ['"', 'x', '"'] := by
  constructor <;> decide

/-- C9, amended: loading what was saved returns the sanitized secret and
the whitespace-stripped display name (or nothing when the secret sanitizes
to empty); in particular the round trip is the identity exactly when the
secret is a nonempty fixed point of the sanitizer and the name carries no
surrounding whitespace. -/
theorem c9_roundtrip_sanitizes (k n : Str) :
    _load_saved_credentials (some (_save_credentials k n))
      = if _sanitize_key k = [] then none else some (_sanitize_key k, pyStrip n) := by
  have hkey : (("agent_name".toList : Str) == "api_key".toList) = false := by decide
  have hkey2 : (("api_key".toList : Str) == "api_key".toList) = true := by decide
  have hname : (("agent_name".toList : Str) == "agent_name".toList) = true := by decide
  have hk : jget [("api_key".toList, Json.str k), ("agent_name".toList, Json.str n)]
      "api_key".toList = some (Json.str k) := by
    unfold jget
    rw [show ([("api_key".toList, Json.str k), ("agent_name".toList, Json.str n)]).reverse
        = [("agent_name".toList, Json.str n), ("api_key".toList, Json.str k)] by simp]
    rw [List.find?_cons_of_neg _ (by simp [hkey]), List.find?_cons_of_pos _ (by simp [hkey2])]
    rfl
  have hn : jget [("api_key".toList, Json.str k), ("agent_name".toList, Json.str n)]
      "agent_name".toList = some (Json.str n) := by
    unfold jget
    rw [show ([("api_key".toList, Json.str k), ("agent_name".toList, Json.str n)]).reverse
        = [("agent_name".toList, Json.str n), ("api_key".toList, Json.str k)] by simp]
    rw [List.find?_cons_of_pos _ (by simp [hname])]
    rfl
  simp only [_save_credentials, _load_saved_credentials, hk, hn, Option.getD_some,
    pyStrOfJson, sanitize_pyStrip]
  by_cases h : _sanitize_key k = []
  · rw [if_neg (by simp [h]), if_pos h]
  · rw [if_pos h, if_neg h]

end Moltbook
